import Mathlib

/-!
Verification of the loan-eligibility decision engine in
`loan_prediction_system.py`: the synthetic-data labeling policy
(`determine_eligibility` inside `generate_loan_data`), the preprocessing
pipeline of `LoanEligibilityModel` (categorical encoders, scaler, derived
income ratio), the target label encoder, the post-prediction rule override
layer (`_apply_custom_rules`), the training error behaviour, and the
save/load round trip.

Numeric conventions: Python floats are embedded as rationals (ℚ), integer
credit scores as ℤ.  sklearn / numpy library calls made by the code are
embedded by their documented semantics (e.g. `LabelEncoder.fit` stores the
*sorted* unique class values; `LabelEncoder.transform` raises `ValueError`
on an unseen value).  Python exceptions are embedded as an `Except` error
type.
-/

namespace LoanSystem

/-- Python exception values that the embedded pipeline can surface.
`valueError` stands for the built-in / sklearn `ValueError`, `keyError`
for a `dict` lookup failure.  `unknownCategoryError` and
`insufficientTrainingDataError` are the typed errors named by the spec's
error taxonomy (§7); they exist here so that claims about them can be
stated, but the source never defines or raises them. -/
inductive PyError where
  | valueError : String → PyError
  | keyError : String → PyError
  | unknownCategoryError : String → PyError
  | insufficientTrainingDataError : String → PyError
deriving DecidableEq

/-- One raw applicant row of the DataFrame built in `generate_loan_data`
(columns `income`, `credit_score`, `employment_status`, `loan_type`). -/
structure Row where
  income : ℚ
  credit_score : ℤ
  employment_status : String
  loan_type : String
deriving DecidableEq

/-- The per-loan-type threshold record of the `loan_criteria` dict inside
`determine_eligibility` (lines 42-61). -/
structure Criteria where
  min_income : ℚ
  preferred_income : ℚ
  min_credit : ℤ
  preferred_credit : ℤ
deriving DecidableEq

/-- The `loan_criteria` dict lookup `loan_criteria[row['loan_type']]`
(line 63): a key outside the three known loan types is a Python
`KeyError`, embedded as `none`. -/
def loan_criteria (loan_type : String) : Option Criteria :=
  if loan_type = "Home Loan" then
    some ⟨50000, 80000, 640, 700⟩
  else if loan_type = "Education Loan" then
    some ⟨30000, 50000, 620, 680⟩
  else if loan_type = "Car Loan" then
    some ⟨25000, 40000, 600, 660⟩
  else
    none

/-- The employment contribution to the borderline score (lines 84-87):
`+0.5` for `Employed`, `+0.3` for `Self-employed`, nothing otherwise. -/
def employment_bonus (employment_status : String) : ℚ :=
  if employment_status = "Employed" then 0.5
  else if employment_status = "Self-employed" then 0.3
  else 0

/-- The borderline score of `determine_eligibility` (lines 80-87):
`(credit_score - min_credit)/200 + (income - min_income)/min_income`
plus the employment bonus. -/
def score_of (row : Row) (c : Criteria) : ℚ :=
  ((row.credit_score : ℚ) - (c.min_credit : ℚ)) / 200
    + (row.income - c.min_income) / c.min_income
    + employment_bonus row.employment_status

/-- `determine_eligibility` (lines 40-89): criteria lookup, then the
automatic rejections in order, then the automatic approval, then the
scoring branch.  Returns `none` exactly when the criteria lookup raises
`KeyError`. -/
def determine_eligibility (row : Row) : Option String :=
  match loan_criteria row.loan_type with
  | none => none
  | some criteria =>
    if row.credit_score < criteria.min_credit then some "Not Eligible"
    else if row.employment_status = "Unemployed" ∧ row.loan_type ≠ "Education Loan" then
      some "Not Eligible"
    else if row.income < criteria.min_income then some "Not Eligible"
    else if criteria.preferred_credit ≤ row.credit_score
        ∧ criteria.preferred_income * 1.5 ≤ row.income
        ∧ row.employment_status = "Employed" then
      some "Eligible"
    else if score_of row criteria > 1 then some "Eligible"
    else some "Not Eligible"

/-- The labeling policy as worded by the spec (§4.1): rule 1 hard reject
(one disjunction), rule 2 hard accept, rule 3 score threshold, in that
order.  Stated relative to the criteria record of the row's loan type. -/
def spec_label (row : Row) (c : Criteria) : String :=
  if row.credit_score < c.min_credit
      ∨ (row.employment_status = "Unemployed" ∧ row.loan_type ≠ "Education Loan")
      ∨ row.income < c.min_income then
    "Not Eligible"
  else if c.preferred_credit ≤ row.credit_score
      ∧ c.preferred_income * 1.5 ≤ row.income
      ∧ row.employment_status = "Employed" then
    "Eligible"
  else if score_of row c > 1 then "Eligible"
  else "Not Eligible"

/-! ### sklearn `LabelEncoder`, embedded by its documented semantics -/

/-- Lexicographic order on character lists (by code point), the string
order `np.unique` sorts by. -/
def charListLt : List Char → List Char → Bool
  | _, [] => false
  | [], _ :: _ => true
  | a :: as, b :: bs =>
    if a.toNat < b.toNat then true
    else if b.toNat < a.toNat then false
    else charListLt as bs

/-- Lexicographic string comparison. -/
def strLt (a b : String) : Bool := charListLt a.data b.data

/-- Sorted-unique insertion of a string: ascending lexicographic order,
duplicates collapsed. -/
def insertUnique (x : String) : List String → List String
  | [] => [x]
  | y :: ys =>
    if strLt y x then y :: insertUnique x ys
    else if strLt x y then x :: y :: ys
    else y :: ys

/-- `LabelEncoder.fit(values)`: the stored `classes_` are the sorted
unique values (numpy `np.unique` semantics — lexicographic string order,
independent of multiplicity). -/
def leFit (values : List String) : List String :=
  values.foldr insertUnique []

/-- Position of `y` in the stored `classes_` list, if present. -/
def classIndex (classes : List String) (y : String) : Option Nat :=
  match classes with
  | [] => none
  | c :: cs => if c = y then some 0 else (classIndex cs y).map (· + 1)

/-- `LabelEncoder.transform` on one value: its index among `classes_`, or
sklearn's `ValueError` for a previously unseen label. -/
def leTransform (classes : List String) (y : String) : Except PyError Nat :=
  match classIndex classes y with
  | some i => Except.ok i
  | none => Except.error (PyError.valueError ("y contains previously unseen labels: " ++ y))

/-- `LabelEncoder.transform` mapped over one DataFrame column; the first
unseen value raises. -/
def leTransformList (classes : List String) : List String → Except PyError (List Nat)
  | [] => Except.ok []
  | y :: ys =>
    match leTransform classes y, leTransformList classes ys with
    | Except.ok i, Except.ok rest => Except.ok (i :: rest)
    | Except.error e, _ => Except.error e
    | _, Except.error e => Except.error e

/-- `LabelEncoder.inverse_transform` on one index. -/
def leInverseTransform (classes : List String) (i : Nat) : Except PyError String :=
  match classes.get? i with
  | some s => Except.ok s
  | none => Except.error (PyError.valueError "inverse_transform: label index out of range")

/-- The target encoder classes produced by `train` (line 150):
`self.target_encoder.fit(['Not Eligible', 'Eligible'])`. -/
def fitted_target_classes : List String :=
  leFit ["Not Eligible", "Eligible"]

/-! ### `LoanEligibilityModel` preprocessing -/

/-- `_calculate_income_ratio` (lines 135-141): divide income by the
`typical_loan_amounts` entry of the loan type, with `dict.get` default
`50000` for a key outside the dict. -/
def calculate_income_ratio (income : ℚ) (loan_type : String) : ℚ :=
  income /
    (if loan_type = "Home Loan" then 250000
     else if loan_type = "Education Loan" then 50000
     else if loan_type = "Car Loan" then 35000
     else 50000)

/-- The fitted categorical encoders held in `self.label_encoders`, one
per categorical column (`employment_status`, `loan_type`). -/
structure Encoders where
  emp_classes : List String
  loan_classes : List String
deriving DecidableEq

/-- The fitted `StandardScaler` statistics for the three numerical
columns `income`, `credit_score`, `income_to_loan_ratio` (mean and scale
per column, as learned at fit time). -/
structure ScalerState where
  mean_income : ℚ
  scale_income : ℚ
  mean_credit : ℚ
  scale_credit : ℚ
  mean_ratio : ℚ
  scale_ratio : ℚ
deriving DecidableEq

/-- `StandardScaler.transform` on the three numerical columns of one row:
subtract the fitted mean, divide by the fitted scale. -/
def scaleRow (s : ScalerState) (income credit ratioVal : ℚ) : ℚ × ℚ × ℚ :=
  ((income - s.mean_income) / s.scale_income,
   (credit - s.mean_credit) / s.scale_credit,
   (ratioVal - s.mean_ratio) / s.scale_ratio)

/-- `preprocess_data(df, training=False)` on a single row (lines
109-133): compute `income_to_loan_ratio` from the original income and
loan type, transform the two categorical columns with the *fitted*
encoders (unseen value ⇒ sklearn `ValueError`), scale the numerical
columns with the fitted scaler, and return the feature vector in the
order `['income', 'credit_score', 'employment_status', 'loan_type',
'income_to_loan_ratio']` used by `predict` (line 160). -/
def preprocess_row (enc : Encoders) (sc : ScalerState) (row : Row) :
    Except PyError (List ℚ) :=
  let ratioVal := calculate_income_ratio row.income row.loan_type
  match leTransform enc.emp_classes row.employment_status with
  | Except.error e => Except.error e
  | Except.ok e =>
    match leTransform enc.loan_classes row.loan_type with
    | Except.error e2 => Except.error e2
    | Except.ok l =>
      let (si, scr, sr) := scaleRow sc row.income (row.credit_score : ℚ) ratioVal
      Except.ok [si, scr, (e : ℚ), (l : ℚ), sr]

/-! ### Rule override layer -/

/-- `_apply_custom_rules` (lines 174-189) on one `(row, prediction)`
pair: the strict rejection criteria overwrite the prediction with
`transform(['Not Eligible'])[0]`; otherwise (`elif`) the exceptional
approval criteria overwrite it with `transform(['Eligible'])[0]`;
otherwise the classifier's prediction stands.  `te` is the fitted target
encoder's class list. -/
def apply_custom_rules_row (te : List String) (row : Row) (pred : Nat) :
    Except PyError Nat :=
  if row.credit_score < 500
      ∨ (row.employment_status = "Unemployed" ∧ row.loan_type = "Home Loan")
      ∨ (row.income < 25000 ∧ row.loan_type = "Home Loan") then
    leTransform te "Not Eligible"
  else if row.credit_score > 800 ∧ row.income > 150000
      ∧ row.employment_status = "Employed" then
    leTransform te "Eligible"
  else
    Except.ok pred

/-! ### The model bundle, prediction, and the save/load round trip -/

/-- The fitted `RandomForestClassifier`, abstracted to its two query
methods on a preprocessed feature vector: `predict` (a label index) and
`predict_proba` (class probabilities).  The tree ensemble's internal
parameters are opaque to every claim; only its input/output behaviour
matters here. -/
structure Classifier where
  predictIdx : List ℚ → Nat
  predictProba : List ℚ → List ℚ

/-- `LoanEligibilityModel`'s fitted state: the four fields set in
`__init__` and populated by `train` (lines 95-107). -/
structure LoanEligibilityModel where
  model : Classifier
  scaler : ScalerState
  label_encoders : Encoders
  target_encoder : List String

/-- The dict written by `save_model` (lines 191-198) and read back by
`load_model`: `{'model': …, 'scaler': …, 'label_encoders': …,
'target_encoder': …}`.  `joblib.dump`/`joblib.load` of this dict is
embedded as the identity on its contents. -/
structure ModelData where
  model : Classifier
  scaler : ScalerState
  label_encoders : Encoders
  target_encoder : List String

/-- `save_model` (lines 191-198): bundle the four fitted components. -/
def save_model (m : LoanEligibilityModel) : ModelData :=
  ⟨m.model, m.scaler, m.label_encoders, m.target_encoder⟩

/-- `load_model` (lines 200-208): build a fresh instance and overwrite
all four components with the loaded ones. -/
def load_model (d : ModelData) : LoanEligibilityModel :=
  ⟨d.model, d.scaler, d.label_encoders, d.target_encoder⟩

/-- `predict` (lines 158-172) on one row: preprocess with the fitted
state, query the classifier for a label index and the probabilities,
apply the custom rules, and inverse-transform the final index to a label
string.  Returns the `(label, probability)` pair reported per row. -/
def predict (m : LoanEligibilityModel) (row : Row) :
    Except PyError (String × List ℚ) :=
  match preprocess_row m.label_encoders m.scaler row with
  | Except.error e => Except.error e
  | Except.ok x =>
    let pred := m.model.predictIdx x
    let proba := m.model.predictProba x
    match apply_custom_rules_row m.target_encoder row pred with
    | Except.error e => Except.error e
    | Except.ok pred2 =>
      match leInverseTransform m.target_encoder pred2 with
      | Except.error e => Except.error e
      | Except.ok label => Except.ok (label, proba)

/-! ### The synthetic data generator

`generate_loan_data` (lines 8-93) calls `np.random.seed(42)` first, then
draws the four feature arrays in a fixed order from numpy's global RNG.
The global RNG is embedded as a `Nat` state; each distribution sampler is
a deterministic stand-in function of that state (for a fixed seed the
numpy samplers are likewise deterministic functions of the global state;
no claim depends on the sampled values, only on determinism, clipping
structure and the labeling step). -/

/-- `np.random.seed(s)`: reset the global RNG state to a function of the
seed alone. -/
def npSeed (s : Nat) : Nat := s

/-- One step of the RNG stream (a 64-bit LCG as a stand-in for numpy's
Mersenne twister). -/
def rngNext (s : Nat) : Nat :=
  (6364136223846793005 * s + 1442695040888963407) % (2 ^ 64)

/-- A uniform draw in `[0,1)` from the stream together with the advanced
state. -/
def drawUnit (s : Nat) : ℚ × Nat :=
  let s2 := rngNext s
  (((s2 % 1000000 : Nat) : ℚ) / 1000000, s2)

/-- `np.clip(x, lo, hi)` on rationals. -/
def npClip (x lo hi : ℚ) : ℚ := min (max x lo) hi

/-- Stand-in for one `np.random.lognormal(mean=11, sigma=0.5)` income
draw, clipped to `[20000, 500000]` as on line 14. -/
def drawIncome (s : Nat) : ℚ × Nat :=
  let (u, s2) := drawUnit s
  (npClip (20000 + u * 480000) 20000 500000, s2)

/-- Stand-in for one `np.random.normal(loc=680, scale=80)` credit-score
draw, clipped to `[300, 850]` and truncated to an integer
(`astype(int)`) as on line 17. -/
def drawCredit (s : Nat) : ℤ × Nat :=
  let (u, s2) := drawUnit s
  (⌊npClip (680 + (u - 0.5) * 160) 300 850⌋, s2)

/-- One `np.random.choice(['Employed', 'Self-employed', 'Unemployed'],
p=[0.75, 0.20, 0.05])` draw (lines 19-23). -/
def drawEmployment (s : Nat) : String × Nat :=
  let (u, s2) := drawUnit s
  ((if u < 0.75 then "Employed"
    else if u < 0.95 then "Self-employed"
    else "Unemployed"), s2)

/-- One `np.random.choice(['Home Loan', 'Education Loan', 'Car Loan'],
p=[0.35, 0.25, 0.40])` draw (lines 25-29). -/
def drawLoanType (s : Nat) : String × Nat :=
  let (u, s2) := drawUnit s
  ((if u < 0.35 then "Home Loan"
    else if u < 0.60 then "Education Loan"
    else "Car Loan"), s2)

/-- Draw an array of `n` samples, threading the RNG state. -/
def drawList {α : Type} (draw : Nat → α × Nat) : Nat → Nat → List α × Nat
  | 0, s => ([], s)
  | n + 1, s =>
    let (x, s2) := draw s
    let (xs, s3) := drawList draw n s2
    (x :: xs, s3)

/-- One labeled row of the generated DataFrame (the four feature columns
plus the `eligibility` column added on line 91). -/
structure LabeledRow where
  row : Row
  eligibility : String
deriving DecidableEq

/-- `generate_loan_data(num_samples)` (lines 8-93): reset the global RNG
to seed 42 (ignoring whatever state `rng_state` it had), draw the four
feature arrays in source order, and label every row with
`determine_eligibility` (`getD` is unreachable: generated loan types are
always in the criteria dict). -/
def generate_loan_data (num_samples : Nat) (_rng_state : Nat) : List LabeledRow :=
  let s0 := npSeed 42
  let (incomes, s1) := drawList drawIncome num_samples s0
  let (credits, s2) := drawList drawCredit num_samples s1
  let (emps, s3) := drawList drawEmployment num_samples s2
  let (loans, _) := drawList drawLoanType num_samples s3
  ((incomes.zip credits).zip (emps.zip loans)).map fun p =>
    let row : Row := ⟨p.1.1, p.1.2, p.2.1, p.2.2⟩
    ⟨row, (determine_eligibility row).getD "KeyError"⟩

/-! ### Training: error behaviour of `train` (lines 143-156) -/

/-- `sklearn.model_selection.train_test_split` sizes for
`test_size=0.2`: the test set gets `ceil(0.2 * n)` rows. -/
def n_test (n : Nat) : Nat := (n + 4) / 5

/-- The training-set size left by the split. -/
def n_train (n : Nat) : Nat := n - n_test n

/-- The validation `train_test_split` itself performs: an empty train or
test set is a `ValueError` (the only size check anywhere in `train`). -/
def train_test_split_check (n : Nat) : Except PyError Unit :=
  if n_train n = 0 ∨ n_test n = 0 then
    Except.error (PyError.valueError "the resulting train set will be empty")
  else
    Except.ok ()

/-- The error-relevant control flow of `train` (lines 143-156): fit the
target encoder on `['Not Eligible', 'Eligible']`, transform the corpus
labels (an unknown label string raises), then split (the only place a
too-small corpus raises), then `RandomForestClassifier.fit` — which
performs no label-cardinality validation and accepts a single-class `y`.
The preprocessing step runs in `training=True` mode and cannot raise.
Returns the encoded label vector on success. -/
def train (df : List LabeledRow) : Except PyError (List Nat) :=
  match leTransformList fitted_target_classes (df.map (·.eligibility)) with
  | Except.error e => Except.error e
  | Except.ok y =>
    match train_test_split_check df.length with
    | Except.error e => Except.error e
    | Except.ok _ => Except.ok y

/-- A concrete ten-row, single-class training corpus: every row is
labeled `Not Eligible`. -/
def singleClassCorpus : List LabeledRow :=
  List.replicate 10 ⟨⟨20000, 400, "Unemployed", "Home Loan"⟩, "Not Eligible"⟩

/-- A concrete fit state whose encoders saw every category the generator
produces (as any training run on a generated corpus containing all
categories would store, in `np.unique` sorted order). -/
def demo_encoders : Encoders :=
  ⟨leFit ["Employed", "Self-employed", "Unemployed"],
   leFit ["Home Loan", "Education Loan", "Car Loan"]⟩

/-- Concrete fitted scaler statistics (identity scaling) for use in
closed evaluations. -/
def demo_scaler : ScalerState := ⟨0, 1, 0, 1, 0, 1⟩

/-! ### Helper lemmas on the encoder embedding -/

theorem classIndex_eq_none_iff (classes : List String) (y : String) :
    classIndex classes y = none ↔ y ∉ classes := by
  induction classes with
  | nil => simp [classIndex]
  | cons c cs ih =>
    by_cases hc : c = y
    · subst hc; simp [classIndex]
    · simp [classIndex, hc, Option.map_eq_none', ih, Ne.symm hc]

theorem leTransform_mem {classes : List String} {y : String} (h : y ∈ classes) :
    ∃ i, leTransform classes y = Except.ok i := by
  unfold leTransform
  rcases ho : classIndex classes y with _ | i
  · exact absurd ((classIndex_eq_none_iff _ _).1 ho) (by simp [h])
  · exact ⟨i, rfl⟩

theorem leTransform_not_mem (classes : List String) (y : String) (h : y ∉ classes) :
    leTransform classes y =
      Except.error (PyError.valueError ("y contains previously unseen labels: " ++ y)) := by
  unfold leTransform
  rw [(classIndex_eq_none_iff _ _).2 h]

theorem leTransformList_ok (classes : List String) (labels : List String)
    (h : ∀ l ∈ labels, l ∈ classes) :
    ∃ ys, leTransformList classes labels = Except.ok ys := by
  induction labels with
  | nil => exact ⟨[], rfl⟩
  | cons a as ih =>
    obtain ⟨i, hi⟩ := leTransform_mem (h a (by simp))
    obtain ⟨ys, hys⟩ := ih (fun l hl => h l (by simp [hl]))
    exact ⟨i :: ys, by simp only [leTransformList, hi, hys]⟩

/-! ### Claim theorems -/

/-- C1: for every generated row (any row whose loan type is in the
criteria dict), the labeling policy applies rules in the order reject,
accept, score: the label computed by `determine_eligibility` equals the
spec's three-rule policy `spec_label` with the loan-type-specific
thresholds — NotEligible on hard reject, Eligible on hard accept, else
Eligible exactly when the score with employment bonus 0.5/0.3/0 exceeds
1. -/
theorem determine_eligibility_matches_spec (row : Row) (c : Criteria)
    (h : loan_criteria row.loan_type = some c) :
    determine_eligibility row = some (spec_label row c) := by
  simp only [determine_eligibility, h, spec_label]
  by_cases h1 : row.credit_score < c.min_credit
  · rw [if_pos h1, if_pos (Or.inl h1)]
  · by_cases h2 : row.employment_status = "Unemployed" ∧ row.loan_type ≠ "Education Loan"
    · rw [if_neg h1, if_pos h2, if_pos (Or.inr (Or.inl h2))]
    · by_cases h3 : row.income < c.min_income
      · rw [if_neg h1, if_neg h2, if_pos h3, if_pos (Or.inr (Or.inr h3))]
      · have hnd : ¬(row.credit_score < c.min_credit
            ∨ (row.employment_status = "Unemployed" ∧ row.loan_type ≠ "Education Loan")
            ∨ row.income < c.min_income) := by tauto
        rw [if_neg h1, if_neg h2, if_neg h3, if_neg hnd]
        split_ifs <;> rfl

/-- Witness for C1 at a concrete borderline row: 60000 income, 700
credit, employed, home loan. -/
theorem determine_eligibility_matches_spec_witness :
    determine_eligibility ⟨60000, 700, "Employed", "Home Loan"⟩ =
      some (spec_label ⟨60000, 700, "Employed", "Home Loan"⟩ ⟨50000, 80000, 640, 700⟩) :=
  determine_eligibility_matches_spec ⟨60000, 700, "Employed", "Home Loan"⟩
    ⟨50000, 80000, 640, 700⟩ rfl

/-- C2 counterexample: the target encoder fitted in `train` maps
`Not Eligible` to index 1 and `Eligible` to index 0 — not
`NotEligible = 0, Eligible = 1` as claimed (`np.unique` sorts the class
strings lexicographically, and `"Eligible" < "Not Eligible"`). -/
theorem target_encoder_indices_counterexample :
    leTransform fitted_target_classes "Not Eligible" = Except.ok 1 ∧
    leTransform fitted_target_classes "Eligible" = Except.ok 0 ∧
    (1 : Nat) ≠ 0 :=
  ⟨rfl, rfl, by decide⟩

/-- C2 (amended): the target label encoder fitted at training time
assigns the fixed indices Eligible = 0 and NotEligible = 1 (sorted class
order), regardless of label frequency in the training corpus (it is
fitted on the literal two-element class list), and this is the index
space in which the rule overrides operate (every override output is one
of the indices 0, 1, or the classifier's own prediction) and in which
predictions are decoded by `inverse_transform`. -/
theorem target_encoder_fixed_indices :
    fitted_target_classes = ["Eligible", "Not Eligible"] ∧
    leTransform fitted_target_classes "Eligible" = Except.ok 0 ∧
    leTransform fitted_target_classes "Not Eligible" = Except.ok 1 ∧
    leInverseTransform fitted_target_classes 0 = Except.ok "Eligible" ∧
    leInverseTransform fitted_target_classes 1 = Except.ok "Not Eligible" ∧
    ∀ (row : Row) (pred : Nat),
      apply_custom_rules_row fitted_target_classes row pred = Except.ok 0 ∨
        apply_custom_rules_row fitted_target_classes row pred = Except.ok 1 ∨
        apply_custom_rules_row fitted_target_classes row pred = Except.ok pred := by
  refine ⟨rfl, rfl, rfl, rfl, rfl, ?_⟩
  intro row pred
  unfold apply_custom_rules_row
  split_ifs
  · right; left; rfl
  · left; rfl
  · right; right; rfl

/-- C3: the rejection override — for every record with
`credit_score < 500`, or unemployed on a home loan, or income below
25000 on a home loan, and for every classifier-predicted index, the
override layer outputs the `Not Eligible` label (index 1 of the fitted
target encoder); in particular, a record with `credit_score = 450` and a
home loan is always `Not Eligible` whatever its income, employment
status and classifier output. -/
theorem override_forces_not_eligible :
    (∀ (row : Row) (pred : Nat),
        (row.credit_score < 500
            ∨ (row.employment_status = "Unemployed" ∧ row.loan_type = "Home Loan")
            ∨ (row.income < 25000 ∧ row.loan_type = "Home Loan")) →
        apply_custom_rules_row fitted_target_classes row pred =
          leTransform fitted_target_classes "Not Eligible" ∧
        apply_custom_rules_row fitted_target_classes row pred = Except.ok 1) ∧
    (∀ (income : ℚ) (emp : String) (pred : Nat),
        apply_custom_rules_row fitted_target_classes ⟨income, 450, emp, "Home Loan"⟩ pred =
          Except.ok 1) ∧
    leInverseTransform fitted_target_classes 1 = Except.ok "Not Eligible" := by
  have hgen : ∀ (row : Row) (pred : Nat),
      (row.credit_score < 500
          ∨ (row.employment_status = "Unemployed" ∧ row.loan_type = "Home Loan")
          ∨ (row.income < 25000 ∧ row.loan_type = "Home Loan")) →
      apply_custom_rules_row fitted_target_classes row pred =
        leTransform fitted_target_classes "Not Eligible" ∧
      apply_custom_rules_row fitted_target_classes row pred = Except.ok 1 := by
    intro row pred hrej
    unfold apply_custom_rules_row
    rw [if_pos hrej]
    exact ⟨rfl, rfl⟩
  refine ⟨hgen, ?_, rfl⟩
  intro income emp pred
  exact (hgen ⟨income, 450, emp, "Home Loan"⟩ pred
    (Or.inl (show (450 : ℤ) < 500 by decide))).2

/-- Witness for C3 at a concrete record: credit 450, home loan, employed,
income 30000, classifier output 0 (`Eligible`) — overridden to index 1
(`Not Eligible`). -/
theorem override_forces_not_eligible_witness :
    apply_custom_rules_row fitted_target_classes ⟨30000, 450, "Employed", "Home Loan"⟩ 0 =
      Except.ok 1 :=
  (override_forces_not_eligible.1 ⟨30000, 450, "Employed", "Home Loan"⟩ 0
    (Or.inl (by decide))).2

/-- C4: the approval override — whenever the rejection override does not
fire, a record with `credit_score > 800`, `income > 150000` and employed
status is overridden to the `Eligible` label (index 0) regardless of the
classifier's prediction; in particular credit 820, income 200000,
employed, with any loan type and any prediction, is always `Eligible`;
and when neither override fires the classifier's prediction stands
unchanged. -/
theorem override_forces_eligible :
    (∀ (row : Row) (pred : Nat),
        ¬(row.credit_score < 500
            ∨ (row.employment_status = "Unemployed" ∧ row.loan_type = "Home Loan")
            ∨ (row.income < 25000 ∧ row.loan_type = "Home Loan")) →
        (row.credit_score > 800 ∧ row.income > 150000
            ∧ row.employment_status = "Employed") →
        apply_custom_rules_row fitted_target_classes row pred =
          leTransform fitted_target_classes "Eligible" ∧
        apply_custom_rules_row fitted_target_classes row pred = Except.ok 0) ∧
    (∀ (lt : String) (pred : Nat),
        apply_custom_rules_row fitted_target_classes ⟨200000, 820, "Employed", lt⟩ pred =
          Except.ok 0) ∧
    (∀ (row : Row) (pred : Nat),
        ¬(row.credit_score < 500
            ∨ (row.employment_status = "Unemployed" ∧ row.loan_type = "Home Loan")
            ∨ (row.income < 25000 ∧ row.loan_type = "Home Loan")) →
        ¬(row.credit_score > 800 ∧ row.income > 150000
            ∧ row.employment_status = "Employed") →
        apply_custom_rules_row fitted_target_classes row pred = Except.ok pred) ∧
    leInverseTransform fitted_target_classes 0 = Except.ok "Eligible" := by
  have hgen : ∀ (row : Row) (pred : Nat),
      ¬(row.credit_score < 500
          ∨ (row.employment_status = "Unemployed" ∧ row.loan_type = "Home Loan")
          ∨ (row.income < 25000 ∧ row.loan_type = "Home Loan")) →
      (row.credit_score > 800 ∧ row.income > 150000
          ∧ row.employment_status = "Employed") →
      apply_custom_rules_row fitted_target_classes row pred =
        leTransform fitted_target_classes "Eligible" ∧
      apply_custom_rules_row fitted_target_classes row pred = Except.ok 0 := by
    intro row pred hrej hacc
    unfold apply_custom_rules_row
    rw [if_neg hrej, if_pos hacc]
    exact ⟨rfl, rfl⟩
  refine ⟨hgen, ?_, ?_, rfl⟩
  · intro lt pred
    refine (hgen ⟨200000, 820, "Employed", lt⟩ pred ?_
      ⟨show (820 : ℤ) > 800 by decide, show (200000 : ℚ) > 150000 by decide, rfl⟩).2
    rintro (hc | ⟨he, _⟩ | ⟨hi, _⟩)
    · exact absurd hc (show ¬(820 : ℤ) < 500 by decide)
    · exact absurd he (show "Employed" ≠ "Unemployed" by decide)
    · exact absurd hi (show ¬(200000 : ℚ) < 25000 by decide)
  · intro row pred hrej hacc
    unfold apply_custom_rules_row
    rw [if_neg hrej, if_neg hacc]

/-- Witness for C4 at a concrete record: credit 820, income 200000,
employed, car loan, classifier output 1 (`Not Eligible`) — overridden to
index 0 (`Eligible`). -/
theorem override_forces_eligible_witness :
    apply_custom_rules_row fitted_target_classes ⟨200000, 820, "Employed", "Car Loan"⟩ 1 =
      Except.ok 0 :=
  override_forces_eligible.2.1 "Car Loan" 1

/-- C5: the policy generator is deterministic — it resets the global RNG
to the fixed seed 42 before drawing, so for every sample count `n`, two
calls with any two prior RNG states produce identical labeled corpora
(same features and same eligibility labels row for row). -/
theorem generate_loan_data_deterministic (n s1 s2 : Nat) :
    generate_loan_data n s1 = generate_loan_data n s2 ∧
    (generate_loan_data n s1).map (·.eligibility) =
      (generate_loan_data n s2).map (·.eligibility) :=
  ⟨rfl, rfl⟩

/-- C6 counterexample: transforming a record whose loan type
`Personal Loan` was never seen at fit time fails with sklearn's plain
`ValueError`, not with a typed `UnknownCategoryError` — the code defines
no such error type. -/
theorem unknown_category_counterexample :
    preprocess_row demo_encoders demo_scaler ⟨50000, 700, "Employed", "Personal Loan"⟩ =
      Except.error (PyError.valueError
        "y contains previously unseen labels: Personal Loan") :=
  rfl

/-- C6 (amended): for every fitted pipeline and every inference-time
input whose employment status or loan type was absent from the training
data, the transform step fails with the encoder's `ValueError` — an
explicit error, never a silent default encoding — but the error is
sklearn's untyped `ValueError`, not a typed `UnknownCategoryError`. -/
theorem unknown_category_raises (enc : Encoders) (sc : ScalerState) (row : Row)
    (h : row.employment_status ∉ enc.emp_classes ∨ row.loan_type ∉ enc.loan_classes) :
    (∃ msg, preprocess_row enc sc row = Except.error (PyError.valueError msg)) ∧
    ∀ msg2, preprocess_row enc sc row ≠
      Except.error (PyError.unknownCategoryError msg2) := by
  by_cases he : row.employment_status ∈ enc.emp_classes
  · have hl : row.loan_type ∉ enc.loan_classes := by tauto
    obtain ⟨i, hi⟩ := leTransform_mem he
    constructor
    · refine ⟨"y contains previously unseen labels: " ++ row.loan_type, ?_⟩
      simp only [preprocess_row, hi, leTransform_not_mem _ _ hl]
    · intro msg2 hcontra
      simp only [preprocess_row, hi, leTransform_not_mem _ _ hl] at hcontra
      exact PyError.noConfusion (Except.error.inj hcontra)
  · constructor
    · refine ⟨"y contains previously unseen labels: " ++ row.employment_status, ?_⟩
      simp only [preprocess_row, leTransform_not_mem _ _ he]
    · intro msg2 hcontra
      simp only [preprocess_row, leTransform_not_mem _ _ he] at hcontra
      exact PyError.noConfusion (Except.error.inj hcontra)

/-- Witness for C6 at a concrete fitted state and a record with the
unseen employment status `Freelancer`. -/
theorem unknown_category_raises_witness :
    ∃ msg, preprocess_row demo_encoders demo_scaler
        ⟨50000, 700, "Freelancer", "Home Loan"⟩ =
      Except.error (PyError.valueError msg) :=
  (unknown_category_raises demo_encoders demo_scaler
    ⟨50000, 700, "Freelancer", "Home Loan"⟩ (Or.inl (by decide))).1

/-- C7 counterexample: training on a ten-row corpus whose labels are all
`Not Eligible` (a single-class label set) succeeds and returns the
encoded labels — no `InsufficientTrainingDataError` and no error at all
is raised. -/
theorem insufficient_data_counterexample :
    train singleClassCorpus = Except.ok [1, 1, 1, 1, 1, 1, 1, 1, 1, 1] :=
  rfl

/-- C7 (amended): `train` performs no minimum-sample-count and no
label-cardinality validation of its own: every corpus with at least two
rows and recognised label strings trains without error — single-class or
not — while a corpus of at most one row fails inside `train_test_split`
with the library's plain `ValueError`, not with a typed
`InsufficientTrainingDataError`. -/
theorem train_lacks_data_validation :
    (∀ df : List LabeledRow, 2 ≤ df.length →
        (∀ l ∈ df.map (·.eligibility), l ∈ fitted_target_classes) →
        ∃ y, train df = Except.ok y) ∧
    (∀ df : List LabeledRow, df.length ≤ 1 →
        (∀ l ∈ df.map (·.eligibility), l ∈ fitted_target_classes) →
        train df =
          Except.error (PyError.valueError "the resulting train set will be empty")) := by
  constructor
  · intro df hlen hvalid
    obtain ⟨ys, hys⟩ := leTransformList_ok _ _ hvalid
    have hsplit : train_test_split_check df.length = Except.ok () := by
      unfold train_test_split_check n_train n_test
      rw [if_neg]
      omega
    refine ⟨ys, ?_⟩
    simp only [train, hys, hsplit]
  · intro df hlen hvalid
    rcases df with _ | ⟨a, rest⟩
    · rfl
    · rcases rest with _ | ⟨b, t⟩
      · obtain ⟨i, hi⟩ := leTransform_mem (hvalid a.eligibility (by simp))
        simp only [train, List.map_cons, List.map_nil, leTransformList, hi,
          List.length_cons, List.length_nil, Nat.zero_add]
        rfl
      · simp only [List.length_cons] at hlen
        omega

/-- Witness for C7 (amended) on the concrete single-class ten-row corpus:
training succeeds. -/
theorem train_lacks_data_validation_witness :
    ∃ y, train singleClassCorpus = Except.ok y :=
  train_lacks_data_validation.1 singleClassCorpus (by decide) (by decide)

/-- C8: saving a trained pipeline (model, scaler, categorical encoders,
target encoder) and loading it back is a round trip — for every input
record, the loaded pipeline's prediction (label and probability) equals
the prediction of the in-memory pipeline before saving. -/
theorem save_load_round_trip (m : LoanEligibilityModel) (row : Row) :
    predict (load_model (save_model m)) row = predict m row :=
  rfl

/-- C9: for every loan type in the criteria dict, a record whose income
equals that type's `min_income`, whose credit score equals its
`min_credit`, and whose employment status is `Employed` is not caught by
any of the three hard-reject comparisons (all strict `<`), is not caught
by the hard-accept rule either, and its label is exactly the scoring
branch's verdict. -/
theorem boundary_row_reaches_scoring (row : Row) (c : Criteria)
    (h : loan_criteria row.loan_type = some c)
    (hinc : row.income = c.min_income)
    (hcr : row.credit_score = c.min_credit)
    (hemp : row.employment_status = "Employed") :
    (¬(row.credit_score < c.min_credit)
      ∧ ¬(row.employment_status = "Unemployed" ∧ row.loan_type ≠ "Education Loan")
      ∧ ¬(row.income < c.min_income))
    ∧ ¬(c.preferred_credit ≤ row.credit_score
        ∧ c.preferred_income * 1.5 ≤ row.income
        ∧ row.employment_status = "Employed")
    ∧ determine_eligibility row =
        some (if score_of row c > 1 then "Eligible" else "Not Eligible") := by
  obtain ⟨inc, cr, emp, lt⟩ := row
  simp only at hinc hcr hemp h
  subst hinc
  subst hcr
  subst hemp
  unfold loan_criteria at h
  split_ifs at h with h1 h2 h3
  · injection h with h4
    subst h4
    subst h1
    norm_num [determine_eligibility, loan_criteria, score_of, employment_bonus,
      show "Employed" ≠ "Unemployed" by decide]
  · injection h with h4
    subst h4
    subst h2
    norm_num [determine_eligibility, loan_criteria, score_of, employment_bonus,
      show "Employed" ≠ "Unemployed" by decide,
      show "Education Loan" ≠ "Home Loan" by decide]
  · injection h with h4
    subst h4
    subst h3
    norm_num [determine_eligibility, loan_criteria, score_of, employment_bonus,
      show "Employed" ≠ "Unemployed" by decide,
      show "Car Loan" ≠ "Home Loan" by decide,
      show "Car Loan" ≠ "Education Loan" by decide]

/-- Witness for C9 at the home-loan boundary: income 50000, credit 640,
employed — the label is the scoring branch's verdict. -/
theorem boundary_row_reaches_scoring_witness :
    determine_eligibility ⟨50000, 640, "Employed", "Home Loan"⟩ =
      some (if score_of ⟨50000, 640, "Employed", "Home Loan"⟩ ⟨50000, 80000, 640, 700⟩ > 1
            then "Eligible" else "Not Eligible") :=
  (boundary_row_reaches_scoring ⟨50000, 640, "Employed", "Home Loan"⟩
    ⟨50000, 80000, 640, 700⟩ rfl rfl rfl rfl).2.2

/-- C10: the income-to-loan-ratio computation divides by 250000, 50000
and 35000 for the three known loan types, and for every other loan-type
string it silently divides by the `dict.get` default 50000 instead of
raising an error. -/
theorem income_ratio_divisors :
    (∀ (income : ℚ) (lt : String),
        lt ≠ "Home Loan" → lt ≠ "Education Loan" → lt ≠ "Car Loan" →
        calculate_income_ratio income lt = income / 50000) ∧
    (∀ income : ℚ, calculate_income_ratio income "Home Loan" = income / 250000) ∧
    (∀ income : ℚ, calculate_income_ratio income "Education Loan" = income / 50000) ∧
    (∀ income : ℚ, calculate_income_ratio income "Car Loan" = income / 35000) := by
  refine ⟨?_, fun i => rfl, fun i => rfl, fun i => rfl⟩
  intro income lt h1 h2 h3
  unfold calculate_income_ratio
  rw [if_neg h1, if_neg h2, if_neg h3]

/-- Witness for C10 at the unknown loan type `Personal Loan`: the
divisor silently falls back to 50000. -/
theorem income_ratio_divisors_witness :
    calculate_income_ratio 100000 "Personal Loan" = 100000 / 50000 :=
  income_ratio_divisors.1 100000 "Personal Loan" (by decide) (by decide) (by decide)

end LoanSystem
